import Mathlib

/-!
# Shallow embedding of `graphql_actix_test` (`src/lib.rs`)

The repository is a single-file Rust test-support library for GraphQL
endpoint tests under actix-web.  It consists of:

* `GraphQLResponseReciever<T>` / `GraphQLResponseError` — deserialization
  shapes for a GraphQL response envelope, with helpers `get_data` and
  `get_messages`;
* `Argument` and `Expected<V>` — the request arguments and the expected
  outcome of a test;
* `test_framework` — the async orchestration function that runs the init
  hook, builds the repository, executes the request, and asserts the
  response against the expectation.

The embedding below is pure and executable.  Rust panics (from
`assert_eq!`, `.unwrap()`, `.expect(...)`, and out-of-bounds indexing) are
modelled as distinguished constructors of `TestOutcome`.  The host
framework's one-shot body reads (`actix_web::test::read_body`,
`test::read_body_json`, `std::str::from_utf8`) are external library code,
not code of this repository: the body is modelled as a list of bytes and
the two decoders are oracle parameters (`json_decode`, `utf8_decode`),
while every point at which the body stream is consumed is recorded as a
`BodyRead` event so that single-read properties can be stated.  Rust's
`assert_eq!` evaluates its extra format arguments only when the assertion
fails, so the `test::read_body(response).await` inside the status
assertion's message is a read that happens only on the status-mismatch
path; the embedding mirrors that.
-/

namespace GraphqlActixTest

/-- Mirrors `GraphQLResponseError` (src/lib.rs lines 57-63): only the
`message` field of a GraphQL error object is retained; `locations` and
`paths` are not modelled, exactly as in the source. -/
structure GraphQLResponseError where
  message : String
  deriving DecidableEq

/-- Mirrors `GraphQLResponseReciever<T>` (src/lib.rs lines 21-28): the
GraphQL response envelope with optional `data` and an optional vector of
errors.  The Rust struct carries a `T: PartialEq` bound; in Lean the
equality instance is required only where values are compared. -/
structure GraphQLResponseReciever (T : Type) where
  data : Option T
  errors : Option (List GraphQLResponseError)
  deriving DecidableEq

/-- Mirrors `GraphQLResponseReciever::get_data` (src/lib.rs lines 34-36):
`self.data.as_ref().unwrap()`.  The `.unwrap()` panic on a `None` data
field is modelled as `Except.error` carrying the standard panic message. -/
def GraphQLResponseReciever.get_data {T : Type} (r : GraphQLResponseReciever T) :
    Except String T :=
  match r.data with
  | some v => Except.ok v
  | none => Except.error "called Option::unwrap() on a None value"

/-- Mirrors `GraphQLResponseReciever::get_messages` (src/lib.rs lines
41-52): maps each error to its `message` field, preserving order, and
returns the empty vector when `errors` is `None`. -/
def GraphQLResponseReciever.get_messages {T : Type} (r : GraphQLResponseReciever T) :
    List String :=
  match r.errors with
  | some s => s.map (fun gre => gre.message)
  | none => []

/-- Mirrors `Argument` (src/lib.rs lines 67-72): header pairs plus a
string GraphQL payload. -/
structure Argument where
  headers : List (String × String)
  payload : String
  deriving DecidableEq

/-- Mirrors `Expected<V>` (src/lib.rs lines 76-84).  The actix
`StatusCode` is modelled as a natural number; `StatusCode::OK` is `200`. -/
structure Expected (V : Type) where
  status : Nat
  errmsg : Option (List String)
  data : Option V
  deriving DecidableEq

/-- Model of `actix_web::dev::ServiceResponse` as consumed by
`test_framework`: a status code and a raw body (a one-shot byte stream,
modelled as the list of its bytes). -/
structure ServiceResponse where
  status : Nat
  body : List Nat
  deriving DecidableEq

/-- The three places at which `test_framework` consumes the one-shot
response body: the `test::read_body` inside the status-mismatch assertion
message (src/lib.rs line 144), the `test::read_body_json` of the success
branch (line 148), and the `test::read_body` of the error branch
(line 165). -/
inductive BodyRead where
  | rawOnStatusMismatch
  | jsonOnSuccess
  | rawOnError
  deriving DecidableEq

/-- The observable outcome of one `test_framework` invocation.  `pass`
means every assertion succeeded; every other constructor is a distinct
panic site of the source, carrying the data that the corresponding panic
message reports:

* `statusMismatch` — the `assert_eq!` on the status (line 138), whose
  message includes the raw body;
* `decodeFailure` — `test::read_body_json` panicking because the body is
  not a JSON document of shape `GraphQLResponseReciever<V>` (line 148);
* `messageMismatch` — the `assert_eq!` on `get_messages()` (line 151);
* `getDataPanic` — the `.unwrap()` inside `get_data()` reached from the
  data assertion when the envelope's `data` is `None` (line 35);
* `dataMismatch` — the `assert_eq!` on `get_data()` (line 156);
* `errmsgExpectPanic` — the `.expect(...)` on `exp.errmsg` in the error
  branch (line 163);
* `errmsgIndexPanic` — the `[0]` index on an empty expected-message
  vector in the error branch (line 163);
* `utf8Panic` — the `.unwrap()` on `std::str::from_utf8` (line 166);
* `bodyMismatch` — the final `assert_eq!` on the raw body text
  (line 168). -/
inductive TestOutcome (V : Type) where
  | pass
  | statusMismatch (got expected : Nat) (body : List Nat)
  | decodeFailure
  | messageMismatch (got expected : List String)
  | getDataPanic
  | dataMismatch (got expected : V)
  | errmsgExpectPanic
  | errmsgIndexPanic
  | utf8Panic
  | bodyMismatch (got expected : String)
  deriving DecidableEq

/-- The data assertion of the success branch (src/lib.rs lines 154-157):
`match exp.data { Some(v) => assert_eq!(got.get_data(), &v), None => {} }`.
Evaluating `got.get_data()` panics first when the envelope's data is
absent; otherwise the assertion compares via `V`'s equality. -/
def data_check {V : Type} [DecidableEq V] (expData : Option V)
    (got : GraphQLResponseReciever V) : TestOutcome V :=
  match expData with
  | none => TestOutcome.pass
  | some v =>
    match got.get_data with
    | Except.error _ => TestOutcome.getDataPanic
    | Except.ok d => if d = v then TestOutcome.pass else TestOutcome.dataMismatch d v

/-- The validation part of `test_framework` (src/lib.rs lines 135-169),
from the status assertion onward, given the response produced by the
execution hook.  Returns the outcome together with the list of body-read
events, in order.  `json_decode` models `test::read_body_json` (reading
the body and decoding it as a `GraphQLResponseReciever<V>`, `none` being
a decode panic) and `utf8_decode` models `std::str::from_utf8` on the
bytes returned by `test::read_body` (`none` being invalid UTF-8).

Branch structure mirrors the source exactly:
* status `assert_eq!` first; its failure message reads the raw body, so
  that read happens only on the mismatch path;
* on `StatusCode::OK` (200): `read_body_json`, then the optional message
  assertion, then the optional data assertion;
* otherwise: `exp.errmsg.expect(...)` (panics on `None`), then `[0]`
  (panics on an empty vector), then `read_body`, `from_utf8` and the
  final `assert_eq!` against the first expected message. -/
def run_checks {V : Type} [DecidableEq V]
    (json_decode : List Nat → Option (GraphQLResponseReciever V))
    (utf8_decode : List Nat → Option String)
    (response : ServiceResponse) (exp : Expected V) :
    TestOutcome V × List BodyRead :=
  let got_status := response.status
  if got_status = exp.status then
    if got_status = 200 then
      -- success case: `test::read_body_json(response).await`
      match json_decode response.body with
      | none => (TestOutcome.decodeFailure, [BodyRead.jsonOnSuccess])
      | some got =>
        (match exp.errmsg with
         | some errmsg =>
           if got.get_messages = errmsg then data_check exp.data got
           else TestOutcome.messageMismatch got.get_messages errmsg
         | none => data_check exp.data got,
         [BodyRead.jsonOnSuccess])
    else
      -- error case: `&exp.errmsg.expect("...")[0]` before any body read
      match exp.errmsg with
      | none => (TestOutcome.errmsgExpectPanic, [])
      | some [] => (TestOutcome.errmsgIndexPanic, [])
      | some (exp_err :: _) =>
        match utf8_decode response.body with
        | none => (TestOutcome.utf8Panic, [BodyRead.rawOnError])
        | some got_err =>
          (if got_err = exp_err then TestOutcome.pass
           else TestOutcome.bodyMismatch got_err exp_err,
           [BodyRead.rawOnError])
  else
    (TestOutcome.statusMismatch got_status exp.status response.body,
     [BodyRead.rawOnStatusMismatch])

/-- Mirrors `test_framework` (src/lib.rs lines 113-170).  The async hooks
are modelled as pure Lean functions (the embedding has no effects):
`init_func` is the fire-and-forget init hook, `repo_func` builds the
repository from the optional seed data (`serde_json::Value` seeds are an
opaque type parameter `J`), and `exec_func` produces the
`ServiceResponse` from the repository and the `Argument`.  The host
decoders are the trailing oracle parameters described at `run_checks`. -/
def test_framework {R J V : Type} [DecidableEq V]
    (init_func : Unit → Unit)
    (repo_func : Option (List J) → R)
    (repo_data : Option (List J))
    (arg : Argument)
    (exec_func : R → Argument → ServiceResponse)
    (exp : Expected V)
    (json_decode : List Nat → Option (GraphQLResponseReciever V))
    (utf8_decode : List Nat → Option String) :
    TestOutcome V × List BodyRead :=
  let _u : Unit := init_func ()
  let repo : R := repo_func repo_data
  let response : ServiceResponse := exec_func repo arg
  run_checks json_decode utf8_decode response exp

/-! ## Branch lemmas for `run_checks` and `test_framework`

Shared helper lemmas computing the orchestrator's result on each of its
control-flow paths. -/

/-- `test_framework` sequences the hooks and then validates the produced
response: it is `run_checks` applied to `exec_func (repo_func repo_data)
arg`. -/
theorem test_framework_eq {R J V : Type} [DecidableEq V]
    (init_func : Unit → Unit) (repo_func : Option (List J) → R)
    (repo_data : Option (List J)) (arg : Argument)
    (exec_func : R → Argument → ServiceResponse) (exp : Expected V)
    (json_decode : List Nat → Option (GraphQLResponseReciever V))
    (utf8_decode : List Nat → Option String) :
    test_framework init_func repo_func repo_data arg exec_func exp
        json_decode utf8_decode
      = run_checks json_decode utf8_decode
          (exec_func (repo_func repo_data) arg) exp := rfl

/-- On the success path with a decodable body and a message assertion
that does not fire, `run_checks` reduces to the data assertion, with a
single JSON body read. -/
theorem run_checks_success {V : Type} [DecidableEq V]
    (json_decode : List Nat → Option (GraphQLResponseReciever V))
    (utf8_decode : List Nat → Option String)
    (resp : ServiceResponse) (exp : Expected V)
    (got : GraphQLResponseReciever V)
    (hstatus : resp.status = exp.status) (h200 : exp.status = 200)
    (hjson : json_decode resp.body = some got)
    (hmsg : exp.errmsg = none ∨ exp.errmsg = some got.get_messages) :
    run_checks json_decode utf8_decode resp exp
      = (data_check exp.data got, [BodyRead.jsonOnSuccess]) := by
  rcases hmsg with h | h <;> simp [run_checks, hstatus, h200, hjson, h]

/-- On the success path with an undecodable body, `run_checks` ends in
the decode panic, after a single JSON body read. -/
theorem run_checks_success_decodeFailure {V : Type} [DecidableEq V]
    (json_decode : List Nat → Option (GraphQLResponseReciever V))
    (utf8_decode : List Nat → Option String)
    (resp : ServiceResponse) (exp : Expected V)
    (hstatus : resp.status = exp.status) (h200 : exp.status = 200)
    (hjson : json_decode resp.body = none) :
    run_checks json_decode utf8_decode resp exp
      = (TestOutcome.decodeFailure, [BodyRead.jsonOnSuccess]) := by
  simp [run_checks, hstatus, h200, hjson]

/-- On the success path, a present expected-message list that differs
from the envelope's messages makes the message assertion fail. -/
theorem run_checks_success_messageMismatch {V : Type} [DecidableEq V]
    (json_decode : List Nat → Option (GraphQLResponseReciever V))
    (utf8_decode : List Nat → Option String)
    (resp : ServiceResponse) (exp : Expected V)
    (got : GraphQLResponseReciever V) (msgs : List String)
    (hstatus : resp.status = exp.status) (h200 : exp.status = 200)
    (hjson : json_decode resp.body = some got)
    (hmsgs : exp.errmsg = some msgs) (hne : got.get_messages ≠ msgs) :
    run_checks json_decode utf8_decode resp exp
      = (TestOutcome.messageMismatch got.get_messages msgs,
         [BodyRead.jsonOnSuccess]) := by
  simp [run_checks, hstatus, h200, hjson, hmsgs, hne]

/-- On the error path with no expected message, `run_checks` ends in the
`.expect(...)` panic with no body read at all. -/
theorem run_checks_error_expectPanic {V : Type} [DecidableEq V]
    (json_decode : List Nat → Option (GraphQLResponseReciever V))
    (utf8_decode : List Nat → Option String)
    (resp : ServiceResponse) (exp : Expected V)
    (hstatus : resp.status = exp.status) (hne : exp.status ≠ 200)
    (hmsg : exp.errmsg = none) :
    run_checks json_decode utf8_decode resp exp
      = (TestOutcome.errmsgExpectPanic, []) := by
  simp [run_checks, hstatus, hne, hmsg]

/-- On the error path with an empty expected-message list, `run_checks`
ends in the `[0]` index panic with no body read at all. -/
theorem run_checks_error_indexPanic {V : Type} [DecidableEq V]
    (json_decode : List Nat → Option (GraphQLResponseReciever V))
    (utf8_decode : List Nat → Option String)
    (resp : ServiceResponse) (exp : Expected V)
    (hstatus : resp.status = exp.status) (hne : exp.status ≠ 200)
    (hmsg : exp.errmsg = some []) :
    run_checks json_decode utf8_decode resp exp
      = (TestOutcome.errmsgIndexPanic, []) := by
  simp [run_checks, hstatus, hne, hmsg]

/-- On the error path with a non-empty expected-message list, the body
is read raw exactly once and compared, as UTF-8 text, against the first
expected message only. -/
theorem run_checks_error_cons {V : Type} [DecidableEq V]
    (json_decode : List Nat → Option (GraphQLResponseReciever V))
    (utf8_decode : List Nat → Option String)
    (resp : ServiceResponse) (exp : Expected V)
    (m : String) (rest : List String)
    (hstatus : resp.status = exp.status) (hne : exp.status ≠ 200)
    (hmsg : exp.errmsg = some (m :: rest)) :
    run_checks json_decode utf8_decode resp exp
      = ((match utf8_decode resp.body with
          | none => TestOutcome.utf8Panic
          | some got_err =>
            if got_err = m then TestOutcome.pass
            else TestOutcome.bodyMismatch got_err m),
         [BodyRead.rawOnError]) := by
  rcases h : utf8_decode resp.body with _ | s <;>
    simp [run_checks, hstatus, hne, hmsg, h]

/-! ## Claim theorems -/

/-- C5: for every envelope, `get_messages` equals the list of the
`message` fields of the envelope's errors in source order when `errors`
is present (so for `errors = [{message: "a"}, {message: "b"}]` it
returns `["a", "b"]`), and equals the empty list — never failing and
never an absent value (it is total and returns a plain list) — when
`errors` is `none`. -/
theorem c5_get_messages_spec {T : Type} (r : GraphQLResponseReciever T) :
    (∀ l, r.errors = some l →
      r.get_messages = l.map GraphQLResponseError.message) ∧
    (r.errors = none → r.get_messages = []) := by
  constructor
  · intro l hl
    simp [GraphQLResponseReciever.get_messages, hl]
  · intro h
    simp [GraphQLResponseReciever.get_messages, h]

/-- Witness for C5 at concrete envelopes: errors `[{message: "a"},
{message: "b"}]` yield `["a", "b"]`, and absent errors yield `[]`. -/
theorem c5_get_messages_spec_witness :
    (GraphQLResponseReciever.mk (none : Option Nat)
        (some [⟨"a"⟩, ⟨"b"⟩])).get_messages = ["a", "b"] ∧
    (GraphQLResponseReciever.mk (some 0) none).get_messages = [] := by
  constructor
  · simpa using
      (c5_get_messages_spec (GraphQLResponseReciever.mk (none : Option Nat)
        (some [⟨"a"⟩, ⟨"b"⟩]))).1 [⟨"a"⟩, ⟨"b"⟩] rfl
  · exact (c5_get_messages_spec
      (GraphQLResponseReciever.mk (some 0) none)).2 rfl

/-- C6: for every envelope, `get_data` returns the contained data value
when `data = some v`, and fails loudly — the `.unwrap()` panic, modelled
as `Except.error` — rather than returning any default value when `data`
is `none`. -/
theorem c6_get_data_spec {T : Type} (r : GraphQLResponseReciever T) :
    (∀ v, r.data = some v → r.get_data = Except.ok v) ∧
    (r.data = none → ∃ msg, r.get_data = Except.error msg) := by
  constructor
  · intro v hv
    simp [GraphQLResponseReciever.get_data, hv]
  · intro h
    exact ⟨"called Option::unwrap() on a None value",
      by simp [GraphQLResponseReciever.get_data, h]⟩

/-- Witness for C6 at concrete envelopes: populated data is returned,
absent data panics. -/
theorem c6_get_data_spec_witness :
    (GraphQLResponseReciever.mk (some 3) none).get_data = Except.ok 3 ∧
    ∃ msg, (GraphQLResponseReciever.mk (none : Option Nat) none).get_data
      = Except.error msg := by
  constructor
  · exact (c6_get_data_spec (GraphQLResponseReciever.mk (some 3) none)).1 3 rfl
  · exact (c6_get_data_spec
      (GraphQLResponseReciever.mk (none : Option Nat) none)).2 rfl

/-- C3: when the response status equals `exp.status`, the status is not
200 OK, and `exp.errmsg` is `none`, `test_framework` fails fatally with
the `.expect(...)` abort (an unwrap/expect-style panic, not an assertion
mismatch constructor) and the body-read trace is empty: it aborts before
reading or comparing the response body. -/
theorem c3_error_missing_errmsg {R J V : Type} [DecidableEq V]
    (init_func : Unit → Unit) (repo_func : Option (List J) → R)
    (repo_data : Option (List J)) (arg : Argument)
    (exec_func : R → Argument → ServiceResponse) (exp : Expected V)
    (json_decode : List Nat → Option (GraphQLResponseReciever V))
    (utf8_decode : List Nat → Option String)
    (hstatus : (exec_func (repo_func repo_data) arg).status = exp.status)
    (hne : exp.status ≠ 200) (hmsg : exp.errmsg = none) :
    test_framework init_func repo_func repo_data arg exec_func exp
        json_decode utf8_decode
      = (TestOutcome.errmsgExpectPanic, ([] : List BodyRead)) := by
  rw [test_framework_eq]
  exact run_checks_error_expectPanic _ _ _ _ hstatus hne hmsg

/-- Witness for C3: a concrete 400-status invocation with
`errmsg = none` ends in the expect panic with no body read. -/
theorem c3_error_missing_errmsg_witness :
    test_framework (fun _ => ()) (fun (_ : Option (List Unit)) => ()) none
        (Argument.mk [] "q") (fun _ _ => ServiceResponse.mk 400 [])
        (Expected.mk 400 none (none : Option Nat))
        (fun _ => none) (fun _ => some "body")
      = (TestOutcome.errmsgExpectPanic, []) :=
  c3_error_missing_errmsg _ _ _ _ _ _ _ _ rfl (by decide) rfl

/-- C9: when the response status equals `exp.status`, the status is not
200 OK, and `exp.errmsg = some []`, `test_framework` fails fatally with
the out-of-bounds `[0]` index on the empty expected-message vector — a
panic distinct from the documented `.expect` abort for an absent
`errmsg` — and the body-read trace is empty: the panic happens before
the response body is read or compared. -/
theorem c9_error_empty_errmsg {R J V : Type} [DecidableEq V]
    (init_func : Unit → Unit) (repo_func : Option (List J) → R)
    (repo_data : Option (List J)) (arg : Argument)
    (exec_func : R → Argument → ServiceResponse) (exp : Expected V)
    (json_decode : List Nat → Option (GraphQLResponseReciever V))
    (utf8_decode : List Nat → Option String)
    (hstatus : (exec_func (repo_func repo_data) arg).status = exp.status)
    (hne : exp.status ≠ 200) (hmsg : exp.errmsg = some []) :
    test_framework init_func repo_func repo_data arg exec_func exp
        json_decode utf8_decode
      = (TestOutcome.errmsgIndexPanic, ([] : List BodyRead)) := by
  rw [test_framework_eq]
  exact run_checks_error_indexPanic _ _ _ _ hstatus hne hmsg

/-- Witness for C9: a concrete 400-status invocation with
`errmsg = some []` ends in the index panic with no body read. -/
theorem c9_error_empty_errmsg_witness :
    test_framework (fun _ => ()) (fun (_ : Option (List Unit)) => ()) none
        (Argument.mk [] "q") (fun _ _ => ServiceResponse.mk 400 [])
        (Expected.mk 400 (some []) (none : Option Nat))
        (fun _ => none) (fun _ => some "body")
      = (TestOutcome.errmsgIndexPanic, []) :=
  c9_error_empty_errmsg _ _ _ _ _ _ _ _ rfl (by decide) rfl

/-- C2: when the response status equals `exp.status`, the status is not
200 OK, and `exp.errmsg = some (m :: rest)` is non-empty, `test_framework`
reads the raw body exactly once on the error path, fails fatally on
invalid UTF-8, otherwise asserts the body text equals the first expected
message `m` exactly; the tail `rest` never influences the result, and no
JSON decoding happens (the outcome is independent of the JSON decoder). -/
theorem c2_error_first_message {R J V : Type} [DecidableEq V]
    (init_func : Unit → Unit) (repo_func : Option (List J) → R)
    (repo_data : Option (List J)) (arg : Argument)
    (exec_func : R → Argument → ServiceResponse) (exp : Expected V)
    (json_decode : List Nat → Option (GraphQLResponseReciever V))
    (utf8_decode : List Nat → Option String)
    (m : String) (rest : List String)
    (hstatus : (exec_func (repo_func repo_data) arg).status = exp.status)
    (hne : exp.status ≠ 200) (hmsg : exp.errmsg = some (m :: rest)) :
    (utf8_decode (exec_func (repo_func repo_data) arg).body = none →
      test_framework init_func repo_func repo_data arg exec_func exp
          json_decode utf8_decode
        = (TestOutcome.utf8Panic, [BodyRead.rawOnError])) ∧
    (∀ s, utf8_decode (exec_func (repo_func repo_data) arg).body = some s →
      test_framework init_func repo_func repo_data arg exec_func exp
          json_decode utf8_decode
        = ((if s = m then TestOutcome.pass else TestOutcome.bodyMismatch s m),
           [BodyRead.rawOnError])) ∧
    (∀ rest', test_framework init_func repo_func repo_data arg exec_func
          { exp with errmsg := some (m :: rest') } json_decode utf8_decode
        = test_framework init_func repo_func repo_data arg exec_func exp
            json_decode utf8_decode) ∧
    (∀ json_decode', test_framework init_func repo_func repo_data arg
          exec_func exp json_decode' utf8_decode
        = test_framework init_func repo_func repo_data arg exec_func exp
            json_decode utf8_decode) := by
  refine ⟨?_, ?_, ?_, ?_⟩
  · intro h
    rw [test_framework_eq,
      run_checks_error_cons _ _ _ _ m rest hstatus hne hmsg, h]
  · intro s h
    rw [test_framework_eq,
      run_checks_error_cons _ _ _ _ m rest hstatus hne hmsg, h]
  · intro rest'
    rw [test_framework_eq, test_framework_eq,
      run_checks_error_cons json_decode utf8_decode
        (exec_func (repo_func repo_data) arg)
        { exp with errmsg := some (m :: rest') } m rest' hstatus hne rfl,
      run_checks_error_cons _ _ _ _ m rest hstatus hne hmsg]
  · intro json_decode'
    rw [test_framework_eq, test_framework_eq,
      run_checks_error_cons _ _ _ _ m rest hstatus hne hmsg,
      run_checks_error_cons _ _ _ _ m rest hstatus hne hmsg]

/-- Witness for C2: with expected status 400 and
`errmsg = some ["bad input", "ignored"]`, a body reading `"bad input"`
passes and a body reading `"bad inputs"` fails with the body mismatch;
an undecodable body panics. -/
theorem c2_error_first_message_witness :
    (test_framework (fun _ => ()) (fun (_ : Option (List Unit)) => ()) none
        (Argument.mk [] "q") (fun _ _ => ServiceResponse.mk 400 [])
        (Expected.mk 400 (some ["bad input", "ignored"]) (none : Option Nat))
        (fun _ => none) (fun _ => some "bad input")
      = (TestOutcome.pass, [BodyRead.rawOnError])) ∧
    (test_framework (fun _ => ()) (fun (_ : Option (List Unit)) => ()) none
        (Argument.mk [] "q") (fun _ _ => ServiceResponse.mk 400 [])
        (Expected.mk 400 (some ["bad input", "ignored"]) (none : Option Nat))
        (fun _ => none) (fun _ => some "bad inputs")
      = (TestOutcome.bodyMismatch "bad inputs" "bad input",
         [BodyRead.rawOnError])) ∧
    (test_framework (fun _ => ()) (fun (_ : Option (List Unit)) => ()) none
        (Argument.mk [] "q") (fun _ _ => ServiceResponse.mk 400 [])
        (Expected.mk 400 (some ["bad input", "ignored"]) (none : Option Nat))
        (fun _ => none) (fun _ => none)
      = (TestOutcome.utf8Panic, [BodyRead.rawOnError])) := by
  refine ⟨?_, ?_, ?_⟩
  · simpa using
      (c2_error_first_message (fun _ => ()) (fun (_ : Option (List Unit)) => ())
        none (Argument.mk [] "q") (fun _ _ => ServiceResponse.mk 400 [])
        (Expected.mk 400 (some ["bad input", "ignored"]) (none : Option Nat))
        (fun _ => none) (fun _ => some "bad input") "bad input" ["ignored"]
        rfl (by decide) rfl).2.1 "bad input" rfl
  · simpa using
      (c2_error_first_message (fun _ => ()) (fun (_ : Option (List Unit)) => ())
        none (Argument.mk [] "q") (fun _ _ => ServiceResponse.mk 400 [])
        (Expected.mk 400 (some ["bad input", "ignored"]) (none : Option Nat))
        (fun _ => none) (fun _ => some "bad inputs") "bad input" ["ignored"]
        rfl (by decide) rfl).2.1 "bad inputs" rfl
  · exact
      (c2_error_first_message (fun _ => ()) (fun (_ : Option (List Unit)) => ())
        none (Argument.mk [] "q") (fun _ _ => ServiceResponse.mk 400 [])
        (Expected.mk 400 (some ["bad input", "ignored"]) (none : Option Nat))
        (fun _ => none) (fun _ => none) "bad input" ["ignored"]
        rfl (by decide) rfl).1 rfl

/-- C1: on the success path (response status equals `exp.status = 200`)
with `exp.data = some v`, the body is decoded as a
`GraphQLResponseReciever V` and the decoded envelope's data is asserted
equal to `v` via `V`'s equality: provided the message assertion does not
fire first (`exp.errmsg` absent or matching), the run passes exactly
when the decoded data is `some v`, and fails with the data-mismatch
assertion when the decoded data is `some v'` with `v' ≠ v`. -/
theorem c1_data_assertion {R J V : Type} [DecidableEq V]
    (init_func : Unit → Unit) (repo_func : Option (List J) → R)
    (repo_data : Option (List J)) (arg : Argument)
    (exec_func : R → Argument → ServiceResponse) (exp : Expected V)
    (json_decode : List Nat → Option (GraphQLResponseReciever V))
    (utf8_decode : List Nat → Option String)
    (v : V) (got : GraphQLResponseReciever V)
    (hstatus : (exec_func (repo_func repo_data) arg).status = exp.status)
    (h200 : exp.status = 200) (hdata : exp.data = some v)
    (hjson : json_decode (exec_func (repo_func repo_data) arg).body = some got)
    (hmsg : exp.errmsg = none ∨ exp.errmsg = some got.get_messages) :
    ((test_framework init_func repo_func repo_data arg exec_func exp
        json_decode utf8_decode).1 = TestOutcome.pass ↔ got.data = some v) ∧
    (∀ v', got.data = some v' → v' ≠ v →
      (test_framework init_func repo_func repo_data arg exec_func exp
        json_decode utf8_decode).1 = TestOutcome.dataMismatch v' v) := by
  have hrun := run_checks_success json_decode utf8_decode _ exp got
    hstatus h200 hjson hmsg
  constructor
  · rw [test_framework_eq, hrun]
    rcases hg : got.data with _ | d
    · simp [data_check, hdata, GraphQLResponseReciever.get_data, hg]
    · by_cases hd : d = v <;>
        simp [data_check, hdata, GraphQLResponseReciever.get_data, hg, hd]
  · intro v' hv' hneq
    rw [test_framework_eq, hrun]
    simp [data_check, hdata, GraphQLResponseReciever.get_data, hv', hneq]

/-- Witness for C1: with expected data `7`, a decoded envelope carrying
`data = some 7` passes and one carrying `data = some 8` fails with the
data-mismatch assertion. -/
theorem c1_data_assertion_witness :
    (test_framework (fun _ => ()) (fun (_ : Option (List Unit)) => ()) none
        (Argument.mk [] "q") (fun _ _ => ServiceResponse.mk 200 [])
        (Expected.mk 200 none (some 7))
        (fun _ => some (GraphQLResponseReciever.mk (some 7) none))
        (fun _ => none)).1 = TestOutcome.pass ∧
    (test_framework (fun _ => ()) (fun (_ : Option (List Unit)) => ()) none
        (Argument.mk [] "q") (fun _ _ => ServiceResponse.mk 200 [])
        (Expected.mk 200 none (some 7))
        (fun _ => some (GraphQLResponseReciever.mk (some 8) none))
        (fun _ => none)).1 = TestOutcome.dataMismatch 8 7 := by
  constructor
  · exact (c1_data_assertion (fun _ => ()) (fun (_ : Option (List Unit)) => ())
      none (Argument.mk [] "q") (fun _ _ => ServiceResponse.mk 200 [])
      (Expected.mk 200 none (some 7))
      (fun _ => some (GraphQLResponseReciever.mk (some 7) none))
      (fun _ => none) 7 (GraphQLResponseReciever.mk (some 7) none)
      rfl rfl rfl rfl (Or.inl rfl)).1.mpr rfl
  · exact (c1_data_assertion (fun _ => ()) (fun (_ : Option (List Unit)) => ())
      none (Argument.mk [] "q") (fun _ _ => ServiceResponse.mk 200 [])
      (Expected.mk 200 none (some 7))
      (fun _ => some (GraphQLResponseReciever.mk (some 8) none))
      (fun _ => none) 7 (GraphQLResponseReciever.mk (some 8) none)
      rfl rfl rfl rfl (Or.inl rfl)).2 8 rfl (by decide)

/-- C4: on the success path with a decoded envelope `got`: a present
`exp.errmsg = some msgs` is compared to `got.get_messages` by plain list
equality (order- and length-sensitive) — on inequality the run fails
with the message mismatch, on equality it proceeds to the data check;
an absent `exp.errmsg` skips the message comparison entirely (the
outcome is exactly the data check, which never inspects the messages);
and an absent `exp.data` skips the data check, so the run passes
whenever the message assertion does not fire. -/
theorem c4_success_optional_checks {R J V : Type} [DecidableEq V]
    (init_func : Unit → Unit) (repo_func : Option (List J) → R)
    (repo_data : Option (List J)) (arg : Argument)
    (exec_func : R → Argument → ServiceResponse) (exp : Expected V)
    (json_decode : List Nat → Option (GraphQLResponseReciever V))
    (utf8_decode : List Nat → Option String)
    (got : GraphQLResponseReciever V)
    (hstatus : (exec_func (repo_func repo_data) arg).status = exp.status)
    (h200 : exp.status = 200)
    (hjson : json_decode (exec_func (repo_func repo_data) arg).body = some got) :
    (∀ msgs, exp.errmsg = some msgs →
      (got.get_messages ≠ msgs →
        (test_framework init_func repo_func repo_data arg exec_func exp
          json_decode utf8_decode).1
          = TestOutcome.messageMismatch got.get_messages msgs) ∧
      (got.get_messages = msgs →
        (test_framework init_func repo_func repo_data arg exec_func exp
          json_decode utf8_decode).1 = data_check exp.data got)) ∧
    (exp.errmsg = none →
      (test_framework init_func repo_func repo_data arg exec_func exp
        json_decode utf8_decode).1 = data_check exp.data got) ∧
    (exp.data = none →
      (exp.errmsg = none ∨ exp.errmsg = some got.get_messages) →
      (test_framework init_func repo_func repo_data arg exec_func exp
        json_decode utf8_decode).1 = TestOutcome.pass) := by
  refine ⟨?_, ?_, ?_⟩
  · intro msgs hmsgs
    constructor
    · intro hne
      rw [test_framework_eq, run_checks_success_messageMismatch json_decode
        utf8_decode _ exp got msgs hstatus h200 hjson hmsgs hne]
    · intro heq
      rw [test_framework_eq, run_checks_success json_decode utf8_decode _ exp
        got hstatus h200 hjson (Or.inr (by rw [hmsgs, heq]))]
  · intro hmsg
    rw [test_framework_eq, run_checks_success json_decode utf8_decode _ exp
      got hstatus h200 hjson (Or.inl hmsg)]
  · intro hdata hmsg
    rw [test_framework_eq, run_checks_success json_decode utf8_decode _ exp
      got hstatus h200 hjson hmsg]
    simp [data_check, hdata]

/-- Witness for C4: a mismatching expected message list fails with the
message mismatch; with matching messages and no expected data the run
passes; with no expectations at all the run passes. -/
theorem c4_success_optional_checks_witness :
    (test_framework (fun _ => ()) (fun (_ : Option (List Unit)) => ()) none
        (Argument.mk [] "q") (fun _ _ => ServiceResponse.mk 200 [])
        (Expected.mk 200 (some ["x"]) (none : Option Nat))
        (fun _ => some (GraphQLResponseReciever.mk none (some [⟨"a"⟩])))
        (fun _ => none)).1 = TestOutcome.messageMismatch ["a"] ["x"] ∧
    (test_framework (fun _ => ()) (fun (_ : Option (List Unit)) => ()) none
        (Argument.mk [] "q") (fun _ _ => ServiceResponse.mk 200 [])
        (Expected.mk 200 (some ["a"]) (none : Option Nat))
        (fun _ => some (GraphQLResponseReciever.mk none (some [⟨"a"⟩])))
        (fun _ => none)).1 = TestOutcome.pass := by
  constructor
  · have h := ((c4_success_optional_checks (fun _ => ())
      (fun (_ : Option (List Unit)) => ()) none (Argument.mk [] "q")
      (fun _ _ => ServiceResponse.mk 200 [])
      (Expected.mk 200 (some ["x"]) (none : Option Nat))
      (fun _ => some (GraphQLResponseReciever.mk none (some [⟨"a"⟩])))
      (fun _ => none) (GraphQLResponseReciever.mk none (some [⟨"a"⟩]))
      rfl rfl rfl).1 ["x"] rfl).1 (by decide)
    simpa using h
  · exact (c4_success_optional_checks (fun _ => ())
      (fun (_ : Option (List Unit)) => ()) none (Argument.mk [] "q")
      (fun _ _ => ServiceResponse.mk 200 [])
      (Expected.mk 200 (some ["a"]) (none : Option Nat))
      (fun _ => some (GraphQLResponseReciever.mk none (some [⟨"a"⟩])))
      (fun _ => none) (GraphQLResponseReciever.mk none (some [⟨"a"⟩]))
      rfl rfl rfl).2.2 rfl (Or.inr (by decide))

/-- C10: on the success path with no expectations at all
(`exp.errmsg = none` and `exp.data = none`), the body is still JSON
decoded: a body that does not decode as a `GraphQLResponseReciever V`
fails the run with the decode panic, while any body that does decode
passes regardless of the envelope's data and errors contents; in both
cases exactly the JSON body read happens. -/
theorem c10_success_no_expectations {R J V : Type} [DecidableEq V]
    (init_func : Unit → Unit) (repo_func : Option (List J) → R)
    (repo_data : Option (List J)) (arg : Argument)
    (exec_func : R → Argument → ServiceResponse) (exp : Expected V)
    (json_decode : List Nat → Option (GraphQLResponseReciever V))
    (utf8_decode : List Nat → Option String)
    (hstatus : (exec_func (repo_func repo_data) arg).status = exp.status)
    (h200 : exp.status = 200)
    (hmsg : exp.errmsg = none) (hdata : exp.data = none) :
    (json_decode (exec_func (repo_func repo_data) arg).body = none →
      test_framework init_func repo_func repo_data arg exec_func exp
          json_decode utf8_decode
        = (TestOutcome.decodeFailure, [BodyRead.jsonOnSuccess])) ∧
    (∀ got, json_decode (exec_func (repo_func repo_data) arg).body = some got →
      test_framework init_func repo_func repo_data arg exec_func exp
          json_decode utf8_decode
        = (TestOutcome.pass, [BodyRead.jsonOnSuccess])) := by
  constructor
  · intro h
    rw [test_framework_eq, run_checks_success_decodeFailure json_decode
      utf8_decode _ exp hstatus h200 h]
  · intro got h
    rw [test_framework_eq, run_checks_success json_decode utf8_decode _ exp
      got hstatus h200 h (Or.inl hmsg)]
    simp [data_check, hdata]

/-- Witness for C10: with no expectations, an undecodable body fails
with the decode panic and a decodable body with arbitrary contents
passes. -/
theorem c10_success_no_expectations_witness :
    (test_framework (fun _ => ()) (fun (_ : Option (List Unit)) => ()) none
        (Argument.mk [] "q") (fun _ _ => ServiceResponse.mk 200 [])
        (Expected.mk 200 none (none : Option Nat))
        (fun _ => none) (fun _ => none)
      = (TestOutcome.decodeFailure, [BodyRead.jsonOnSuccess])) ∧
    (test_framework (fun _ => ()) (fun (_ : Option (List Unit)) => ()) none
        (Argument.mk [] "q") (fun _ _ => ServiceResponse.mk 200 [])
        (Expected.mk 200 none (none : Option Nat))
        (fun _ => some (GraphQLResponseReciever.mk (some 5) (some [⟨"e"⟩])))
        (fun _ => none)
      = (TestOutcome.pass, [BodyRead.jsonOnSuccess])) := by
  constructor
  · exact (c10_success_no_expectations (fun _ => ())
      (fun (_ : Option (List Unit)) => ()) none (Argument.mk [] "q")
      (fun _ _ => ServiceResponse.mk 200 [])
      (Expected.mk 200 none (none : Option Nat))
      (fun _ => none) (fun _ => none) rfl rfl rfl rfl).1 rfl
  · exact (c10_success_no_expectations (fun _ => ())
      (fun (_ : Option (List Unit)) => ()) none (Argument.mk [] "q")
      (fun _ _ => ServiceResponse.mk 200 [])
      (Expected.mk 200 none (none : Option Nat))
      (fun _ => some (GraphQLResponseReciever.mk (some 5) (some [⟨"e"⟩])))
      (fun _ => none) rfl rfl rfl rfl).2
      (GraphQLResponseReciever.mk (some 5) (some [⟨"e"⟩])) rfl

/-- C7: on every invocation and every control path, the one-shot
response body is consumed at most once: the body-read trace of
`test_framework` has length at most one, so the raw read inside the
status-mismatch message, the JSON-decode read of the success path and
the raw UTF-8 read of the error path are mutually exclusive and none
happens speculatively on a path that does not need it. -/
theorem c7_single_body_read {R J V : Type} [DecidableEq V]
    (init_func : Unit → Unit) (repo_func : Option (List J) → R)
    (repo_data : Option (List J)) (arg : Argument)
    (exec_func : R → Argument → ServiceResponse) (exp : Expected V)
    (json_decode : List Nat → Option (GraphQLResponseReciever V))
    (utf8_decode : List Nat → Option String) :
    (test_framework init_func repo_func repo_data arg exec_func exp
      json_decode utf8_decode).2.length ≤ 1 := by
  rw [test_framework_eq]
  simp only [run_checks]
  repeat' split
  all_goals simp

/-- C8: `test_framework` is deterministic — the embedding's hooks are
pure functions, and two invocations on identical inputs (hooks, seed
data, argument, expectation and host decoders) yield the same pass/fail
outcome. -/
theorem c8_deterministic {R J V : Type} [DecidableEq V]
    (i₁ i₂ : Unit → Unit) (f₁ f₂ : Option (List J) → R)
    (d₁ d₂ : Option (List J)) (a₁ a₂ : Argument)
    (e₁ e₂ : R → Argument → ServiceResponse) (x₁ x₂ : Expected V)
    (jd₁ jd₂ : List Nat → Option (GraphQLResponseReciever V))
    (ud₁ ud₂ : List Nat → Option String)
    (hi : i₁ = i₂) (hf : f₁ = f₂) (hd : d₁ = d₂) (ha : a₁ = a₂)
    (he : e₁ = e₂) (hx : x₁ = x₂) (hjd : jd₁ = jd₂) (hud : ud₁ = ud₂) :
    (test_framework i₁ f₁ d₁ a₁ e₁ x₁ jd₁ ud₁).1
      = (test_framework i₂ f₂ d₂ a₂ e₂ x₂ jd₂ ud₂).1 := by
  subst hi hf hd ha he hx hjd hud
  rfl

/-- Witness for C8: two invocations on literally identical concrete
inputs agree. -/
theorem c8_deterministic_witness :
    (test_framework (fun _ => ()) (fun (_ : Option (List Unit)) => ()) none
        (Argument.mk [] "q") (fun _ _ => ServiceResponse.mk 200 [])
        (Expected.mk 200 none (some 7))
        (fun _ => some (GraphQLResponseReciever.mk (some 7) none))
        (fun _ => none)).1
      = (test_framework (fun _ => ()) (fun (_ : Option (List Unit)) => ()) none
          (Argument.mk [] "q") (fun _ _ => ServiceResponse.mk 200 [])
          (Expected.mk 200 none (some 7))
          (fun _ => some (GraphQLResponseReciever.mk (some 7) none))
          (fun _ => none)).1 :=
  c8_deterministic (fun _ => ()) (fun _ => ()) (fun _ => ()) (fun _ => ())
    none none (Argument.mk [] "q") (Argument.mk [] "q")
    (fun _ _ => ServiceResponse.mk 200 []) (fun _ _ => ServiceResponse.mk 200 [])
    (Expected.mk 200 none (some 7)) (Expected.mk 200 none (some 7))
    (fun _ => some (GraphQLResponseReciever.mk (some 7) none))
    (fun _ => some (GraphQLResponseReciever.mk (some 7) none))
    (fun _ => none) (fun _ => none)
    rfl rfl rfl rfl rfl rfl rfl rfl

end GraphqlActixTest
